import Mathlib

/-!
Shallow embedding of the TCP connection-handler core of the `myss` proxy
(`ss/core/base.py`): the `BaseTCPHandler` lifecycle operations
(`register`, `relate`, `_append_to_rbuf`, `_pop_from_rbuf`,
`_on_dns_resolved`, `_create_peer_socket`) and the role state machines
(`LocalMixin.on_recv_nego`, `LocalMixin.on_recv_syn`,
`RemoteMixin.on_recv_syn`).

Bytes are `Nat`, byte strings are `List Nat`, and the read/write deques
are `List (List Nat)` consumed from the head and appended at the tail.
Stateful methods become pure functions from a `Handler` state (plus the
externally supplied inputs: the bytes returned by `recv`, the DNS
callback arguments, the connect result) to a new state paired with an
action describing the externally visible outcome (destroy, resolve,
raise, wait).

External collaborators that live outside `src` (the SOCKS5 message codec
`ss/core/socks5.py`, the transport codec, `ss/utils.py`) are either
abstracted as parameters of an `Externals` record or modelled from the spec,
as marked on each definition.
-/

/-! ## Stage constants (`BaseMixin`, `BaseTCPHandler`) -/

def STAGE_INIT : Int := 0

def STAGET_SOCKS5_NEGO : Int := 1

def STAGE_SOCKS5_SYN : Int := 2

def STAGE_DNS_RESOVED : Int := 3

def STAGE_PEER_CONNECTED : Int := 4

def STAGE_CLOSED : Int := -1

def HDL_POSITIVE : Nat := 0

def HDL_NEGATIVE : Nat := 1

def BUF_SIZE : Nat := 32 * 1024

/-! ## Errno constants (Linux values; the module-level tuples of base.py) -/

def EAGAIN : Nat := 11

def EWOULDBLOCK : Nat := 11

def ETIMEDOUT : Nat := 110

def EINPROGRESS : Nat := 115

def ERRNO_WOULDBLOCK : List Nat := [EWOULDBLOCK, EAGAIN]

def ERRNO_INPROGRESS : List Nat := [EINPROGRESS]

/-- The errno tuple tested in every `recv` except-clause of the role
state machines: `(errno.ETIMEDOUT, errno.EAGAIN, errno.EWOULDBLOCK)`. -/
def recvRetryErrnos : List Nat := [ETIMEDOUT, EAGAIN, EWOULDBLOCK]

/-! ## Data model -/

/-- The configuration surface the handlers read: `server` and
`server_port` of the tunnel endpoint (`options` dict, read-only). -/
structure Config where
  server : List Nat
  serverPort : Nat
deriving Repr, DecidableEq

/-- State of one `BaseTCPHandler` (with its role mixin).  `pairedWith`
models the weak reference `_op_hdl_ref` as the id of the other handler,
`none` when unset. -/
structure Handler where
  id : Nat
  isLocal : Bool
  status : Int
  registered : Bool
  readBuf : List (List Nat)
  rbufSize : Nat
  writeBuf : List (List Nat)
  wbufSize : Nat
  directConn : Bool
  peerAddr : Option (List Nat × Nat)
  pairedWith : Option Nat
  tags : Nat
  config : Config
deriving Repr, DecidableEq

/-- External collaborators of the engine, abstracted as parameters:
the SOCKS5 message codec (`ss/core/socks5.py`: `parse_header`,
`gen_ack`, the command constants), the transport codec (`self._codec`),
the UDP-associate reply bytes (built from the socket's own bound
address), and the overridable host-exclusion predicate
(`_exclusive_host`; the call site passes the first byte of the parsed
address, so the predicate receives one byte). -/
structure Externals where
  codec : List Nat → List Nat
  parseHeader : List Nat → Option (Nat × List Nat × Nat × Nat)
  CMD_CONNECT : Nat
  CMD_UDPFWD : Nat
  genAck : List Nat × Nat
  udpReply : List Nat
  exclusiveHost : Nat → Bool

/-- Result of a call to `self._sock.recv`: either an `OSError`/`IOError`
carrying an errno, or the received bytes (empty on EOF). -/
inductive RecvResult
  | err (e : Nat)
  | data (d : List Nat)
deriving Repr, DecidableEq

/-! ## Connection-handler operations (`BaseTCPHandler`) -/

/-- Modelled from the spec: the `destroy` contract of a role handler
(implemented by the concrete handler classes, which are not under
`src`): unregister from the multiplexer, close the socket, mark the
status CLOSED (§4.1 Destroy).  Pair propagation acts on the other
handler's state and is outside this single-handler state. -/
def destroy (h : Handler) : Handler :=
  { h with status := STAGE_CLOSED, registered := false }

/-- Outcome of `register`: normal registration, the warning-and-return
taken when `_registered` is already set, or the `RuntimeError` raised
when the handler is CLOSED. -/
inductive RegisterResult
  | ok
  | warnedAlreadyRegistered
  | raisedClosed
deriving Repr, DecidableEq

/-- `BaseTCPHandler.register`. -/
def register (h : Handler) : Handler × RegisterResult :=
  if h.registered then (h, .warnedAlreadyRegistered)
  else if h.status = STAGE_CLOSED then (h, .raisedClosed)
  else ({ h with registered := true }, .ok)

/-- `BaseTCPHandler.relate`: set the weak back-reference once; a second
call logs a warning and leaves the reference unchanged.  The returned
`Bool` is true when the already-related warning fired. -/
def relate (h other : Handler) : Handler × Bool :=
  if h.pairedWith.isSome then (h, true)
  else ({ h with pairedWith := some other.id }, false)

/-- `BaseTCPHandler._append_to_rbuf`: optionally pass the data through
the transport codec, append it as one chunk, bump the byte counter. -/
def appendToRbuf (ext : Externals) (h : Handler) (data : List Nat) (codec : Bool) : Handler :=
  let d := if codec then ext.codec data else data
  { h with readBuf := h.readBuf ++ [d], rbufSize := h.rbufSize + d.length }

/-- Modelled from the spec: `utils.merge_prefix` (`ss/utils.py`, not
under `src`).  Per §4.1, `consumeFromReadBuffer(n)` coalesces buffer
chunks from the head until the first `n` buffered bytes (or all of
them, if fewer) form one contiguous chunk, splitting an oversized chunk
so that the remainder stays buffered — this is what lets the engine
consume exactly `header_length` bytes (§4.4) at any fragmentation
boundary.  Returns the coalesced first chunk and the remaining chunks. -/
def mergePfxAux : List (List Nat) → Nat → List Nat × List (List Nat)
  | [], _ => ([], [])
  | c :: cs, n =>
    if n ≤ c.length then
      (c.take n, if n < c.length then c.drop n :: cs else cs)
    else
      let r := mergePfxAux cs (n - c.length)
      (c ++ r.1, r.2)

/-- The deque after `utils.merge_prefix(deque, size)`: the coalesced
first chunk followed by the untouched remainder. -/
def mergePfx (dq : List (List Nat)) (size : Nat) : List (List Nat) :=
  let r := mergePfxAux dq size
  r.1 :: r.2

/-- `BaseTCPHandler._pop_from_rbuf`: merge the first `bufsize` bytes
into one chunk, pop it from the head, decrement the counter. -/
def popFromRbuf (h : Handler) (bufsize : Nat) : List Nat × Handler :=
  let r := mergePfxAux h.readBuf bufsize
  (r.1, { h with readBuf := r.2, rbufSize := h.rbufSize - r.1.length })

/-- Outcome of the DNS-resolution callback. -/
inductive DnsAction
  | destroyed
  | ignored
  | exceptionLogged
  | createPeer (ip : List Nat) (port : Nat)
deriving Repr, DecidableEq

/-- `BaseTCPHandler._on_dns_resolved`.  `result` is the resolver's
`(hostname, ip)` pair (or absent), `err` whether a truthy error was
passed.  A falsy `result` falls through silently; an empty ip destroys;
otherwise the recorded peer port is read (a missing `_peer_addr` raises
inside the `try`, which is logged) and peer-socket creation starts. -/
def onDnsResolved (h : Handler) (result : Option (List Nat × List Nat)) (err : Bool) :
    Handler × DnsAction :=
  if err then (destroy h, .destroyed)
  else
    match result with
    | none => (h, .ignored)
    | some (_hostname, ip) =>
      if ip = [] then (destroy h, .destroyed)
      else
        match h.peerAddr with
        | none => (h, .exceptionLogged)
        | some (_, port) =>
          ({ h with status := STAGE_DNS_RESOVED }, .createPeer ip port)

/-- Result of the non-blocking `sock.connect(sa)` call. -/
inductive ConnectResult
  | ok
  | err (e : Nat)
deriving Repr, DecidableEq

/-- Outcome of `_create_peer_socket`. -/
inductive PeerAction
  | raisedGetaddrinfo
  | destroyedSelf
  | paired
deriving Repr, DecidableEq

/-- A freshly constructed concrete handler
(`self.__class__(io_loop, sock, sa, dns_resolver, HDL_POSITIVE,
**config)`): the field initialisation of `BaseTCPHandler.__init__`
composed with the mixin `__init__` of the same role (local starts at
STAGE_INIT, remote at STAGET_SOCKS5_NEGO, `_direct_conn` false). -/
def initHandler (hid : Nat) (isLocal : Bool) (cfg : Config) (tags : Nat) : Handler :=
  { id := hid
    isLocal := isLocal
    status := if isLocal then STAGE_INIT else STAGET_SOCKS5_NEGO
    registered := false
    readBuf := []
    rbufSize := 0
    writeBuf := []
    wbufSize := 0
    directConn := false
    peerAddr := none
    pairedWith := none
    tags := tags
    config := cfg }

/-- `BaseTCPHandler._create_peer_socket`, parameterised by the length of
the `getaddrinfo` answer, the outcome of the non-blocking connect, and
the id given to the newly constructed peer handler. -/
def createPeerSocket (h : Handler) (addrinfoLen : Nat) (cres : ConnectResult) (newId : Nat) :
    Handler × Option Handler × PeerAction :=
  if addrinfoLen = 0 then (h, none, .raisedGetaddrinfo)
  else
    let failed := match cres with
      | .ok => false
      | .err e => !(ERRNO_INPROGRESS.contains e) && !(ERRNO_WOULDBLOCK.contains e)
    if failed then (destroy h, none, .destroyedSelf)
    else
      let p0 := initHandler newId h.isLocal h.config HDL_POSITIVE
      let p1 := { p0 with directConn := h.directConn }
      let p2 := (register p1).1
      let h1 := (relate h p2).1
      let p3 := (relate p2 h1).1
      ({ h1 with status := STAGE_PEER_CONNECTED },
       some { p3 with status := STAGE_PEER_CONNECTED },
       .paired)

/-! ## Local role state machine (`LocalMixin`) -/

/-- `LocalMixin._exclusive_host`: the shipped local predicate returns
`True` unconditionally (routing policy deferred). -/
def localExclusiveHost (_host : Nat) : Bool := true

/-- `LocalMixin._sshost`: the configured tunnel endpoint. -/
def sshost (h : Handler) : List Nat × Nat := (h.config.server, h.config.serverPort)

/-- Modelled from the spec: `socks5.gen_nego` (`ss/core/socks5.py`, not
under `src`) builds the negotiation reply; per §8 the engine replies
with the two bytes 05 00, and the returned length is the reply's
length. -/
def genNego : List Nat × Nat := ([5, 0], 2)

/-- Outcome of `on_recv_nego`. -/
inductive NegoAction
  | waitMore
  | destroyed
  | replied
deriving Repr, DecidableEq

/-- `LocalMixin.on_recv_nego`, parameterised by the `recv` outcome. -/
def onRecvNego (h : Handler) (r : RecvResult) : Handler × NegoAction :=
  if h.status = STAGE_CLOSED then (destroy h, .destroyed)
  else
    match r with
    | .err e =>
      if e ∈ recvRetryErrnos then (h, .waitMore) else (destroy h, .destroyed)
    | .data d =>
      if d = [] then (destroy h, .destroyed)
      else
        ({ h with writeBuf := h.writeBuf ++ [genNego.1]
                  wbufSize := h.wbufSize + genNego.2
                  status := STAGET_SOCKS5_NEGO }, .replied)

/-- Outcome of `on_recv_syn`. -/
inductive SynAction
  | waitMore
  | destroyed
  | indexError
  | udpReplied
  | resolve (host : List Nat)
deriving Repr, DecidableEq

/-- The CONNECT branch of `LocalMixin.on_recv_syn`, applied to the data
after the 3-byte SOCKS5 fixed prefix is stripped: append to the read
buffer, coalesce, try to parse a destination header; on success pop
`BUF_SIZE` bytes, queue the connect ack, and route by the
host-exclusion predicate (which is applied to the first byte of the
parsed address, `remote_addr[0]`; an empty parsed address would make
that subscript raise). -/
def localConnectBranch (ext : Externals) (h : Handler) (tail : List Nat) : Handler × SynAction :=
  let h1 := appendToRbuf ext h tail false
  let h2 := { h1 with readBuf := mergePfx h1.readBuf BUF_SIZE }
  if h2.readBuf = [] then (h2, .waitMore)
  else
    match ext.parseHeader (h2.readBuf.headD []) with
    | none => (h2, .waitMore)
    | some (_atyp, remoteAddr, remotePort, _hdrLen) =>
      let pr := popFromRbuf h2 BUF_SIZE
      let h3 := { pr.2 with status := STAGE_SOCKS5_SYN
                            writeBuf := pr.2.writeBuf ++ [ext.genAck.1]
                            wbufSize := pr.2.wbufSize + ext.genAck.2 }
      if remoteAddr = [] then (h3, .indexError)
      else if ext.exclusiveHost (remoteAddr.headD 0) then
        let h4 := { appendToRbuf ext h3 pr.1 true with peerAddr := some (sshost h3) }
        (h4, .resolve (sshost h3).1)
      else
        ({ h3 with directConn := true, peerAddr := some (remoteAddr, remotePort) },
         .resolve remoteAddr)

/-- `LocalMixin.on_recv_syn`, parameterised by the `recv` outcome.
`data[1]` on a buffer shorter than two bytes raises an uncaught
IndexError, represented by the `indexError` action with the state
untouched. -/
def onRecvSynLocal (ext : Externals) (h : Handler) (r : RecvResult) : Handler × SynAction :=
  if h.status = STAGE_CLOSED then (destroy h, .destroyed)
  else
    match r with
    | .err e =>
      if e ∈ recvRetryErrnos then (h, .waitMore) else (destroy h, .destroyed)
    | .data d =>
      if d = [] then (destroy h, .destroyed)
      else if d.length < 2 then (h, .indexError)
      else if d.getD 1 0 = ext.CMD_UDPFWD then
        ({ h with writeBuf := h.writeBuf ++ [ext.udpReply]
                  wbufSize := h.wbufSize + ext.udpReply.length }, .udpReplied)
      else if d.getD 1 0 = ext.CMD_CONNECT then
        localConnectBranch ext h (d.drop 3)
      else
        (destroy h, .destroyed)

/-! ## Remote role state machine (`RemoteMixin`) -/

/-- The body of `RemoteMixin.on_recv_syn` after a successful non-empty
read: ingest through the transport codec, coalesce, parse; on success
pop exactly `header_length` bytes, record the destination, resolve. -/
def remoteSynBranch (ext : Externals) (h : Handler) (d : List Nat) : Handler × SynAction :=
  let h1 := appendToRbuf ext h d true
  let h2 := { h1 with readBuf := mergePfx h1.readBuf BUF_SIZE }
  if h2.readBuf = [] then (h2, .waitMore)
  else
    match ext.parseHeader (h2.readBuf.headD []) with
    | none => (h2, .waitMore)
    | some (_atyp, remoteAddr, remotePort, hdrLen) =>
      let pr := popFromRbuf h2 hdrLen
      ({ pr.2 with status := STAGE_SOCKS5_SYN
                   peerAddr := some (remoteAddr, remotePort) },
       .resolve remoteAddr)

/-- `RemoteMixin.on_recv_syn`, parameterised by the `recv` outcome. -/
def onRecvSynRemote (ext : Externals) (h : Handler) (r : RecvResult) : Handler × SynAction :=
  if h.status = STAGE_CLOSED then (destroy h, .destroyed)
  else
    match r with
    | .err e =>
      if e ∈ recvRetryErrnos then (h, .waitMore) else (destroy h, .destroyed)
    | .data d =>
      if d = [] then (destroy h, .destroyed)
      else remoteSynBranch ext h d

/-! ## Concrete sample instances for witnesses -/

/-- A concrete SOCKS5 header parse function usable as the `parseHeader`
collaborator in witnesses: IPv4 requests only — address type byte 1,
four address bytes, two big-endian port bytes, header length 7. -/
def sampleParseHeader (d : List Nat) : Option (Nat × List Nat × Nat × Nat) :=
  match d with
  | 1 :: a :: b :: c :: e :: p1 :: p2 :: _ => some (1, [a, b, c, e], p1 * 256 + p2, 7)
  | _ => none

/-- A concrete external-collaborator bundle: identity transport codec,
IPv4 parse, standard SOCKS5 command bytes, the always-true local
exclusion predicate. -/
def sampleExt : Externals :=
  { codec := fun l => l
    parseHeader := sampleParseHeader
    CMD_CONNECT := 1
    CMD_UDPFWD := 3
    genAck := ([5, 0, 0, 1, 0, 0, 0, 0, 0, 0], 10)
    udpReply := [5, 0, 0, 1, 127, 0, 0, 1, 0, 80]
    exclusiveHost := fun _ => true }

/-- `sampleExt` with a non-constant exclusion predicate (true exactly on
the byte 8), exercising both routing branches. -/
def sampleExtSel : Externals :=
  { sampleExt with exclusiveHost := fun b => b = 8 }

def sampleConfig : Config := { server := [10, 0, 0, 1], serverPort := 8388 }

/-- A local handler that finished negotiation and awaits the SYN. -/
def sampleHandler : Handler :=
  { id := 0
    isLocal := true
    status := STAGET_SOCKS5_NEGO
    registered := true
    readBuf := []
    rbufSize := 0
    writeBuf := []
    wbufSize := 0
    directConn := false
    peerAddr := none
    pairedWith := none
    tags := HDL_NEGATIVE
    config := sampleConfig }

/-- A remote handler awaiting the tunnelled SYN. -/
def sampleRemoteHandler : Handler :=
  { sampleHandler with id := 1, isLocal := false }

/-- A closed, unregistered handler. -/
def sampleClosedHandler : Handler :=
  { sampleHandler with id := 2, registered := false, status := STAGE_CLOSED }

/-! ## Claim C4 — registration errors -/

/-- Claim C4, counterexample: calling `register()` on an
already-registered (not closed) handler does not raise — it logs a
warning and returns with the handler unchanged, so the already-
registered condition is masked rather than surfaced to the caller. -/
theorem register_double_counterexample :
    register sampleHandler = (sampleHandler, .warnedAlreadyRegistered) ∧
    RegisterResult.warnedAlreadyRegistered ≠ RegisterResult.raisedClosed := by
  decide

/-- Claim C4 (amended): `register()` on an already-CLOSED handler raises
a fatal `RuntimeError` immediately; on an already-registered handler it
logs a warning and returns without re-registering (a no-op, not an
error); otherwise it registers the socket. -/
theorem register_cases (h : Handler) :
    (h.registered = true → register h = (h, .warnedAlreadyRegistered)) ∧
    (h.registered = false → h.status = STAGE_CLOSED → register h = (h, .raisedClosed)) ∧
    (h.registered = false → h.status ≠ STAGE_CLOSED →
      register h = ({ h with registered := true }, .ok)) := by
  refine ⟨?_, ?_, ?_⟩ <;> intros <;> simp [register, *]

/-- Witness for `register_cases` at the closed sample handler. -/
theorem register_cases_witness :
    register sampleClosedHandler = (sampleClosedHandler, .raisedClosed) :=
  (register_cases sampleClosedHandler).2.1 rfl rfl

/-! ## Claim C5 — DNS-resolution callback -/

/-- Claim C5: a resolver error destroys the handler with no peer
creation; a result carrying an empty ip destroys the handler with no
peer creation; a successful result advances the status and proceeds to
peer-socket creation with the resolved ip and the previously recorded
destination port. -/
theorem dns_resolution_outcomes (h : Handler) (result : Option (List Nat × List Nat))
    (err : Bool) (addr : List Nat) (port : Nat)
    (hpa : h.peerAddr = some (addr, port)) :
    (err = true →
      onDnsResolved h result err = (destroy h, .destroyed)) ∧
    (∀ hn ip, err = false → result = some (hn, ip) → ip = [] →
      onDnsResolved h result err = (destroy h, .destroyed)) ∧
    (∀ hn ip, err = false → result = some (hn, ip) → ip ≠ [] →
      onDnsResolved h result err =
        ({ h with status := STAGE_DNS_RESOVED }, .createPeer ip port)) := by
  refine ⟨?_, ?_, ?_⟩
  · intro he; subst he; simp [onDnsResolved]
  · intro hn ip he hr hip; subst he; subst hr; simp [onDnsResolved, hip]
  · intro hn ip he hr hip; subst he; subst hr; simp [onDnsResolved, hip, hpa]

/-- A handler that has recorded its peer target, awaiting resolution. -/
def sampleDnsHandler : Handler :=
  { sampleHandler with id := 3, peerAddr := some ([9, 9, 9, 9], 80) }

/-- Witness for `dns_resolution_outcomes` on a successful resolution. -/
theorem dns_resolution_outcomes_witness :
    onDnsResolved sampleDnsHandler (some ([104], [9, 9, 9, 9])) false =
      ({ sampleDnsHandler with status := STAGE_DNS_RESOVED }, .createPeer [9, 9, 9, 9] 80) :=
  (dns_resolution_outcomes sampleDnsHandler (some ([104], [9, 9, 9, 9])) false
    [9, 9, 9, 9] 80 rfl).2.2 [104] [9, 9, 9, 9] rfl rfl (by decide)

/-! ## Claim C7 — transient errno versus EOF -/

/-- Claim C7: in all three receive operations, a recv failing with a
would-block/timeout-class errno leaves the handler (status, buffers and
all) unchanged without destroying it, while a zero-length read destroys
the handler. -/
theorem transient_errno_waits_eof_destroys (ext : Externals) (h : Handler) (e : Nat)
    (hst : h.status ≠ STAGE_CLOSED) (he : e ∈ recvRetryErrnos) :
    onRecvNego h (.err e) = (h, .waitMore) ∧
    onRecvSynLocal ext h (.err e) = (h, .waitMore) ∧
    onRecvSynRemote ext h (.err e) = (h, .waitMore) ∧
    onRecvNego h (.data []) = (destroy h, .destroyed) ∧
    onRecvSynLocal ext h (.data []) = (destroy h, .destroyed) ∧
    onRecvSynRemote ext h (.data []) = (destroy h, .destroyed) := by
  refine ⟨?_, ?_, ?_, ?_, ?_, ?_⟩ <;>
    simp [onRecvNego, onRecvSynLocal, onRecvSynRemote, hst, he]

/-- Witness for `transient_errno_waits_eof_destroys` at errno EAGAIN. -/
theorem transient_errno_waits_eof_destroys_witness :
    sampleHandler.status ≠ STAGE_CLOSED ∧
    onRecvNego sampleHandler (.err 11) = (sampleHandler, .waitMore) :=
  ⟨by decide,
   (transient_errno_waits_eof_destroys sampleExt sampleHandler 11 (by decide) (by decide)).1⟩

/-! ## Claim C8 — negotiation reply -/

/-- Claim C8: any non-empty negotiation payload, regardless of content,
makes the local handler queue exactly one protocol-generated
negotiation reply (the write-buffer byte counter grows by its length)
and advance out of the initial stage. -/
theorem nego_reply_queued (h : Handler) (d : List Nat)
    (hst : h.status ≠ STAGE_CLOSED) (hd : d ≠ []) :
    onRecvNego h (.data d) =
      ({ h with writeBuf := h.writeBuf ++ [genNego.1]
                wbufSize := h.wbufSize + genNego.1.length
                status := STAGET_SOCKS5_NEGO }, .replied) ∧
    STAGET_SOCKS5_NEGO ≠ STAGE_INIT := by
  constructor
  · simp [onRecvNego, hst, hd, genNego]
  · decide

/-- Witness for `nego_reply_queued` on the canonical request 05 01 00. -/
theorem nego_reply_queued_witness :
    onRecvNego sampleHandler (.data [5, 1, 0]) =
      ({ sampleHandler with writeBuf := sampleHandler.writeBuf ++ [genNego.1]
                            wbufSize := sampleHandler.wbufSize + genNego.1.length
                            status := STAGET_SOCKS5_NEGO }, .replied) :=
  (nego_reply_queued sampleHandler [5, 1, 0] (by decide) (by decide)).1

/-! ## Claim C9 — unknown SYN command -/

/-- Claim C9: a SYN payload whose command byte is neither CONNECT nor
UDP-associate destroys the local handler and queues no reply bytes
(write buffer and its counter are untouched by `destroy`). -/
theorem unknown_cmd_destroys_no_reply (ext : Externals) (h : Handler) (d : List Nat)
    (hst : h.status ≠ STAGE_CLOSED) (hlen : 2 ≤ d.length)
    (hc : d.getD 1 0 ≠ ext.CMD_CONNECT) (hu : d.getD 1 0 ≠ ext.CMD_UDPFWD) :
    onRecvSynLocal ext h (.data d) = (destroy h, .destroyed) ∧
    (destroy h).writeBuf = h.writeBuf ∧ (destroy h).wbufSize = h.wbufSize := by
  have hdne : d ≠ [] := by
    intro hnil; rw [hnil] at hlen; simp at hlen
  have hnl : ¬ d.length < 2 := not_lt.mpr hlen
  simp only [List.getD, List.get?_eq_getElem?] at hc hu
  refine ⟨?_, rfl, rfl⟩
  simp [onRecvSynLocal, List.getD, hst, hdne, hnl, hc, hu]

/-- Witness for `unknown_cmd_destroys_no_reply` at command byte 2. -/
theorem unknown_cmd_destroys_no_reply_witness :
    onRecvSynLocal sampleExt sampleHandler (.data [5, 2, 0]) =
      (destroy sampleHandler, .destroyed) :=
  (unknown_cmd_destroys_no_reply sampleExt sampleHandler [5, 2, 0] (by decide) (by decide)
    (by decide) (by decide)).1

/-! ## Claim C10 — one-byte SYN read -/

/-- Claim C10: a one-byte first chunk in the local SYN stage makes the
subscript `data[1]` raise an uncaught IndexError: the handler is left
exactly as it was — neither destroyed nor waiting by choice. -/
theorem one_byte_syn_raises_index_error (ext : Externals) (h : Handler) (b : Nat)
    (hst : h.status ≠ STAGE_CLOSED) :
    onRecvSynLocal ext h (.data [b]) = (h, .indexError) := by
  simp [onRecvSynLocal, hst]

/-- Witness for `one_byte_syn_raises_index_error` on the byte 05. -/
theorem one_byte_syn_raises_index_error_witness :
    onRecvSynLocal sampleExt sampleHandler (.data [5]) = (sampleHandler, .indexError) :=
  one_byte_syn_raises_index_error sampleExt sampleHandler 5 (by decide)

/-! ## Coalescing lemmas -/

/-- Coalescing a single chunk no longer than the requested size yields
the chunk itself and leaves nothing behind. -/
theorem mergePfxAux_single_le (c : List Nat) (n : Nat) (hle : c.length ≤ n) :
    mergePfxAux [c] n = (c, []) := by
  unfold mergePfxAux
  by_cases hc : n ≤ c.length
  · have he : c.length = n := le_antisymm hle hc
    simp [hc, List.take_of_length_le hle, he]
  · simp only [if_neg hc]
    unfold mergePfxAux
    simp

/-- Coalescing a single chunk at a size within the chunk splits it: the
first `n` bytes come off, the rest stays buffered. -/
theorem mergePfxAux_single_ge (c : List Nat) (n : Nat) (hge : n ≤ c.length) :
    mergePfxAux [c] n = (c.take n, if n < c.length then [c.drop n] else []) := by
  unfold mergePfxAux
  simp [hge]

/-! ## Claim C2 — remote SYN consumes the header only -/

/-- Claim C2: when the decoded buffered bytes form header-then-payload
with a parseable header, the remote handler consumes exactly
`header_length` bytes — the flattened read buffer afterwards is exactly
the payload and the byte counter drops by exactly the header length —
records the parsed destination as its peer target, and issues a DNS
resolution for it. -/
theorem remote_syn_consumes_header_only (ext : Externals) (h : Handler) (d : List Nat)
    (atyp : Nat) (raddr : List Nat) (rport hdrLen : Nat)
    (hst : h.status ≠ STAGE_CLOSED)
    (hrb : h.readBuf = []) (hrs : h.rbufSize = 0)
    (hd : d ≠ [])
    (hparse : ext.parseHeader (ext.codec d) = some (atyp, raddr, rport, hdrLen))
    (hlen : hdrLen ≤ (ext.codec d).length)
    (hbuf : (ext.codec d).length ≤ BUF_SIZE) :
    ((onRecvSynRemote ext h (.data d)).1.readBuf).flatten = (ext.codec d).drop hdrLen ∧
    (onRecvSynRemote ext h (.data d)).1.rbufSize = (ext.codec d).length - hdrLen ∧
    (onRecvSynRemote ext h (.data d)).1.peerAddr = some (raddr, rport) ∧
    (onRecvSynRemote ext h (.data d)).1.status = STAGE_SOCKS5_SYN ∧
    (onRecvSynRemote ext h (.data d)).2 = SynAction.resolve raddr := by
  have hm : mergePfxAux [ext.codec d] BUF_SIZE = (ext.codec d, []) :=
    mergePfxAux_single_le _ _ hbuf
  have hp : mergePfxAux [ext.codec d] hdrLen =
      ((ext.codec d).take hdrLen,
        if hdrLen < (ext.codec d).length then [(ext.codec d).drop hdrLen] else []) :=
    mergePfxAux_single_ge _ _ hlen
  have hres : onRecvSynRemote ext h (.data d) =
      ({ h with readBuf := (if hdrLen < (ext.codec d).length
                    then [(ext.codec d).drop hdrLen] else [])
                rbufSize := (0 + (ext.codec d).length) - ((ext.codec d).take hdrLen).length
                status := STAGE_SOCKS5_SYN
                peerAddr := some (raddr, rport) },
       SynAction.resolve raddr) := by
    simp [onRecvSynRemote, remoteSynBranch, appendToRbuf, popFromRbuf, mergePfx,
      hst, hd, hrb, hrs, hm, hp, hparse]
  rw [hres]
  have htk : ((ext.codec d).take hdrLen).length = hdrLen := by
    simp [List.length_take, Nat.min_eq_left hlen]
  refine ⟨?_, ?_, rfl, rfl, rfl⟩
  · by_cases hlt : hdrLen < (ext.codec d).length
    · simp [hlt]
    · have : (ext.codec d).length ≤ hdrLen := not_lt.mp hlt
      simp [hlt, List.drop_eq_nil_of_le this]
  · simp [htk]

/-- Witness for `remote_syn_consumes_header_only`: a tunnel-encoded SYN
whose decoded bytes are a 7-byte IPv4 header followed by the two
payload bytes 42 43; the payload stays buffered. -/
theorem remote_syn_consumes_header_only_witness :
    ((onRecvSynRemote sampleExt sampleRemoteHandler
        (.data [1, 9, 9, 9, 9, 0, 80, 42, 43])).1.readBuf).flatten =
      (sampleExt.codec [1, 9, 9, 9, 9, 0, 80, 42, 43]).drop 7 :=
  (remote_syn_consumes_header_only sampleExt sampleRemoteHandler
    [1, 9, 9, 9, 9, 0, 80, 42, 43] 1 [9, 9, 9, 9] 80 7
    (by decide) rfl rfl (by decide) (by decide) (by decide) (by decide)).1

/-- Evaluation of the local CONNECT branch when the read buffer was
empty and the stripped data parses as a complete header: the handler
pops the whole coalesced buffer (`BUF_SIZE`-bounded), queues the
connect ack, and routes by the exclusion predicate — re-appending the
entire popped data through the transport codec and targeting the
configured tunnel server when excluded, or marking a direct connection
to the parsed destination (dropping the popped data) otherwise. -/
theorem localConnectBranch_parsed (ext : Externals) (h : Handler) (tail : List Nat)
    (atyp : Nat) (raddr : List Nat) (rport hdrLen : Nat)
    (hrb : h.readBuf = []) (hrs : h.rbufSize = 0)
    (hparse : ext.parseHeader tail = some (atyp, raddr, rport, hdrLen))
    (hra : raddr ≠ [])
    (hbuf : tail.length ≤ BUF_SIZE) :
    localConnectBranch ext h tail =
      if ext.exclusiveHost (raddr.headD 0) then
        ({ h with readBuf := [ext.codec tail]
                  rbufSize := ((0 + tail.length) - tail.length) + (ext.codec tail).length
                  status := STAGE_SOCKS5_SYN
                  writeBuf := h.writeBuf ++ [ext.genAck.1]
                  wbufSize := h.wbufSize + ext.genAck.2
                  peerAddr := some (h.config.server, h.config.serverPort) },
         SynAction.resolve h.config.server)
      else
        ({ h with readBuf := []
                  rbufSize := (0 + tail.length) - tail.length
                  status := STAGE_SOCKS5_SYN
                  writeBuf := h.writeBuf ++ [ext.genAck.1]
                  wbufSize := h.wbufSize + ext.genAck.2
                  directConn := true
                  peerAddr := some (raddr, rport) },
         SynAction.resolve raddr) := by
  have hm : mergePfxAux [tail] BUF_SIZE = (tail, []) :=
    mergePfxAux_single_le _ _ hbuf
  by_cases hex : ext.exclusiveHost (raddr.headD 0) <;>
    simp [localConnectBranch, appendToRbuf, popFromRbuf, mergePfx, sshost,
      hrb, hrs, hm, hparse, hra, hex]

/-! ## Claim C1 — local CONNECT consumption -/

/-- Claim C1, counterexample: for the SYN bytes
05 01 00 | 01 08 08 08 08 00 50 | 2a the stripped remainder is an
8-byte chunk whose header parses with `header_length` 7 and payload 2a.
The claim demands that exactly 7 bytes be consumed and that only the
payload 2a be re-appended through the codec; the code instead pops the
whole 8-byte buffer and re-appends all of it, header bytes included, so
the read buffer holds the full chunk (size 8, not 1). -/
theorem local_syn_header_not_stripped_counterexample :
    (onRecvSynLocal sampleExt sampleHandler
        (.data [5, 1, 0, 1, 8, 8, 8, 8, 0, 80, 42])).1.readBuf =
      [[1, 8, 8, 8, 8, 0, 80, 42]] ∧
    (onRecvSynLocal sampleExt sampleHandler
        (.data [5, 1, 0, 1, 8, 8, 8, 8, 0, 80, 42])).1.readBuf ≠ [[42]] ∧
    (onRecvSynLocal sampleExt sampleHandler
        (.data [5, 1, 0, 1, 8, 8, 8, 8, 0, 80, 42])).1.rbufSize = 8 := by
  decide

/-- Claim C1 (amended): when the buffered bytes parse as a complete
destination header, the local handler consumes the entire coalesced
buffer (bounded by `BUF_SIZE`), not just `header_length` bytes, and in
the tunneled branch the whole consumed data — header bytes included —
is re-appended to the read buffer through the Transport Codec. -/
theorem local_syn_tunnel_reappends_whole_data (ext : Externals) (h : Handler) (d : List Nat)
    (atyp : Nat) (raddr : List Nat) (rport hdrLen : Nat)
    (hst : h.status ≠ STAGE_CLOSED)
    (hrb : h.readBuf = []) (hrs : h.rbufSize = 0)
    (hlen : 2 ≤ d.length)
    (hcu : d.getD 1 0 ≠ ext.CMD_UDPFWD)
    (hcc : d.getD 1 0 = ext.CMD_CONNECT)
    (hparse : ext.parseHeader (d.drop 3) = some (atyp, raddr, rport, hdrLen))
    (hra : raddr ≠ [])
    (hex : ext.exclusiveHost (raddr.headD 0) = true)
    (hbuf : (d.drop 3).length ≤ BUF_SIZE) :
    (onRecvSynLocal ext h (.data d)).1.readBuf = [ext.codec (d.drop 3)] ∧
    (onRecvSynLocal ext h (.data d)).1.rbufSize = (ext.codec (d.drop 3)).length ∧
    (onRecvSynLocal ext h (.data d)).1.peerAddr =
      some (h.config.server, h.config.serverPort) ∧
    (onRecvSynLocal ext h (.data d)).2 = SynAction.resolve h.config.server := by
  have hdne : d ≠ [] := by intro hnil; rw [hnil] at hlen; simp at hlen
  have hnl : ¬ d.length < 2 := not_lt.mpr hlen
  simp only [List.getD, List.get?_eq_getElem?] at hcu hcc
  have hne : ext.CMD_CONNECT ≠ ext.CMD_UDPFWD := hcc ▸ hcu
  have hred : onRecvSynLocal ext h (.data d) = localConnectBranch ext h (d.drop 3) := by
    simp [onRecvSynLocal, List.getD, hst, hdne, hnl, hcu, hcc, hne]
  have hex' : ext.exclusiveHost (raddr.head?.getD 0) = true := by simpa using hex
  rw [hred,
    localConnectBranch_parsed ext h (d.drop 3) atyp raddr rport hdrLen hrb hrs hparse hra hbuf]
  simp [hex']

/-- Witness for `local_syn_tunnel_reappends_whole_data` on the same
bytes as the counterexample. -/
theorem local_syn_tunnel_reappends_whole_data_witness :
    (onRecvSynLocal sampleExt sampleHandler
        (.data [5, 1, 0, 1, 8, 8, 8, 8, 0, 80, 42])).1.readBuf =
      [sampleExt.codec (List.drop 3 [5, 1, 0, 1, 8, 8, 8, 8, 0, 80, 42])] :=
  (local_syn_tunnel_reappends_whole_data sampleExt sampleHandler
    [5, 1, 0, 1, 8, 8, 8, 8, 0, 80, 42] 1 [8, 8, 8, 8] 80 7
    (by decide) rfl rfl (by decide) (by decide) (by decide) (by decide) (by decide)
    (by decide) (by decide)).1

/-! ## Claim C6 — routing by the host-exclusion predicate -/

/-- Claim C6: with a parsed destination in hand, the local handler
routes by the host-exclusion predicate.  Judged excluded: the direct
flag stays false, the peer target becomes the configured tunnel server,
and the re-appended buffer content passes through the Transport Codec.
Judged not excluded: the direct flag is set, the peer target is the
parsed destination verbatim, the popped data is dropped (the read
buffer ends empty), and the result does not depend on the codec at all
— the payload is untouched by it. -/
theorem local_syn_exclusion_routing (ext : Externals) (h : Handler) (d : List Nat)
    (atyp : Nat) (raddr : List Nat) (rport hdrLen : Nat)
    (hst : h.status ≠ STAGE_CLOSED)
    (hrb : h.readBuf = []) (hrs : h.rbufSize = 0)
    (hlen : 2 ≤ d.length)
    (hcu : d.getD 1 0 ≠ ext.CMD_UDPFWD)
    (hcc : d.getD 1 0 = ext.CMD_CONNECT)
    (hparse : ext.parseHeader (d.drop 3) = some (atyp, raddr, rport, hdrLen))
    (hra : raddr ≠ [])
    (hdc : h.directConn = false)
    (hbuf : (d.drop 3).length ≤ BUF_SIZE) :
    (ext.exclusiveHost (raddr.headD 0) = true →
      (onRecvSynLocal ext h (.data d)).1.directConn = false ∧
      (onRecvSynLocal ext h (.data d)).1.peerAddr =
        some (h.config.server, h.config.serverPort) ∧
      (onRecvSynLocal ext h (.data d)).1.readBuf = [ext.codec (d.drop 3)] ∧
      (onRecvSynLocal ext h (.data d)).2 = SynAction.resolve h.config.server) ∧
    (ext.exclusiveHost (raddr.headD 0) = false →
      (onRecvSynLocal ext h (.data d)).1.directConn = true ∧
      (onRecvSynLocal ext h (.data d)).1.peerAddr = some (raddr, rport) ∧
      (onRecvSynLocal ext h (.data d)).1.readBuf = [] ∧
      (onRecvSynLocal ext h (.data d)).2 = SynAction.resolve raddr ∧
      (∀ codecF : List Nat → List Nat,
        onRecvSynLocal { ext with codec := codecF } h (.data d) =
          onRecvSynLocal ext h (.data d))) := by
  have hdne : d ≠ [] := by intro hnil; rw [hnil] at hlen; simp at hlen
  have hnl : ¬ d.length < 2 := not_lt.mpr hlen
  simp only [List.getD, List.get?_eq_getElem?] at hcu hcc
  have hne : ext.CMD_CONNECT ≠ ext.CMD_UDPFWD := hcc ▸ hcu
  have hred : onRecvSynLocal ext h (.data d) = localConnectBranch ext h (d.drop 3) := by
    simp [onRecvSynLocal, List.getD, hst, hdne, hnl, hcu, hcc, hne]
  constructor
  · intro hex
    have hex' : ext.exclusiveHost (raddr.head?.getD 0) = true := by simpa using hex
    rw [hred, localConnectBranch_parsed ext h (d.drop 3) atyp raddr rport hdrLen
      hrb hrs hparse hra hbuf]
    simp [hex', hdc]
  · intro hex
    have hex' : ext.exclusiveHost (raddr.head?.getD 0) = false := by simpa using hex
    have hmain : localConnectBranch ext h (d.drop 3) =
        ({ h with readBuf := []
                  rbufSize := (0 + (d.drop 3).length) - (d.drop 3).length
                  status := STAGE_SOCKS5_SYN
                  writeBuf := h.writeBuf ++ [ext.genAck.1]
                  wbufSize := h.wbufSize + ext.genAck.2
                  directConn := true
                  peerAddr := some (raddr, rport) },
         SynAction.resolve raddr) := by
      rw [localConnectBranch_parsed ext h (d.drop 3) atyp raddr rport hdrLen
        hrb hrs hparse hra hbuf]
      simp [hex']
    refine ⟨?_, ?_, ?_, ?_, ?_⟩
    · rw [hred, hmain]
    · rw [hred, hmain]
    · rw [hred, hmain]
    · rw [hred, hmain]
    · intro codecF
      have hred' : onRecvSynLocal { ext with codec := codecF } h (.data d) =
          localConnectBranch { ext with codec := codecF } h (d.drop 3) := by
        simp [onRecvSynLocal, List.getD, hst, hdne, hnl, hcu, hcc, hne]
      have hmain' : localConnectBranch { ext with codec := codecF } h (d.drop 3) =
          ({ h with readBuf := []
                    rbufSize := (0 + (d.drop 3).length) - (d.drop 3).length
                    status := STAGE_SOCKS5_SYN
                    writeBuf := h.writeBuf ++ [ext.genAck.1]
                    wbufSize := h.wbufSize + ext.genAck.2
                    directConn := true
                    peerAddr := some (raddr, rport) },
           SynAction.resolve raddr) := by
        rw [localConnectBranch_parsed { ext with codec := codecF } h (d.drop 3)
          atyp raddr rport hdrLen hrb hrs hparse hra hbuf]
        simp [hex']
      rw [hred', hmain', hred, hmain]

/-- Witness for `local_syn_exclusion_routing` with a selective
predicate (true exactly on first byte 8): destination 9 9 9 9 is judged
not excluded, so the handler marks the direct flag and targets it
verbatim. -/
theorem local_syn_exclusion_routing_witness :
    (onRecvSynLocal sampleExtSel sampleHandler
        (.data [5, 1, 0, 1, 9, 9, 9, 9, 0, 80])).1.directConn = true ∧
    (onRecvSynLocal sampleExtSel sampleHandler
        (.data [5, 1, 0, 1, 9, 9, 9, 9, 0, 80])).1.peerAddr = some ([9, 9, 9, 9], 80) :=
  let r := (local_syn_exclusion_routing sampleExtSel sampleHandler
    [5, 1, 0, 1, 9, 9, 9, 9, 0, 80] 1 [9, 9, 9, 9] 80 7
    (by decide) rfl rfl (by decide) (by decide) (by decide) (by decide) (by decide)
    rfl (by decide)).2 (by decide)
  ⟨r.1, r.2.1⟩

/-! ## Claim C3 — peer-socket creation -/

/-- Claim C3: a connect error that is in-progress or would-block is
treated as success-so-far (the outcome is the same as a clean connect);
any other connect error destroys the initiating handler and creates no
peer; on success a new handler of the same concrete role is built,
inherits the initiator's direct-connect flag, is registered, is paired
bidirectionally with the initiator, and both statuses become
PEER_CONNECTED. -/
theorem create_peer_socket_classified (h : Handler) (alen : Nat) (cres : ConnectResult)
    (newId : Nat) (halen : alen ≠ 0) (hpair : h.pairedWith = none) :
    (∀ e, cres = .err e → ERRNO_INPROGRESS.contains e = false →
      ERRNO_WOULDBLOCK.contains e = false →
      createPeerSocket h alen cres newId = (destroy h, none, .destroyedSelf)) ∧
    (∀ e, cres = .err e → (ERRNO_INPROGRESS.contains e || ERRNO_WOULDBLOCK.contains e) = true →
      createPeerSocket h alen cres newId = createPeerSocket h alen .ok newId) ∧
    (cres = .ok →
      createPeerSocket h alen cres newId =
        ({ h with pairedWith := some newId, status := STAGE_PEER_CONNECTED },
         some { initHandler newId h.isLocal h.config HDL_POSITIVE with
                  directConn := h.directConn
                  registered := true
                  pairedWith := some h.id
                  status := STAGE_PEER_CONNECTED },
         .paired)) := by
  have hfresh : ¬ (if h.isLocal then STAGE_INIT else STAGET_SOCKS5_NEGO) = STAGE_CLOSED := by
    cases h.isLocal <;> decide
  refine ⟨?_, ?_, ?_⟩
  · intro e hc h1 h2
    subst hc
    have h1' : e ∉ ERRNO_INPROGRESS := by simpa using h1
    have h2' : e ∉ ERRNO_WOULDBLOCK := by simpa using h2
    simp [createPeerSocket, halen, h1', h2']
  · intro e hc hor
    subst hc
    rcases Bool.or_eq_true_iff.mp hor with ha | hb
    · have ha' : e ∈ ERRNO_INPROGRESS := by simpa using ha
      simp [createPeerSocket, halen, ha']
    · have hb' : e ∈ ERRNO_WOULDBLOCK := by simpa using hb
      simp [createPeerSocket, halen, hb']
  · intro hc
    subst hc
    simp only [createPeerSocket, if_neg halen]
    simp [register, relate, initHandler, hpair, hfresh]

/-- Witness for `create_peer_socket_classified` on a clean connect. -/
theorem create_peer_socket_classified_witness :
    createPeerSocket sampleHandler 1 .ok 7 =
      ({ sampleHandler with pairedWith := some 7, status := STAGE_PEER_CONNECTED },
       some { initHandler 7 sampleHandler.isLocal sampleHandler.config HDL_POSITIVE with
                directConn := sampleHandler.directConn
                registered := true
                pairedWith := some sampleHandler.id
                status := STAGE_PEER_CONNECTED },
       .paired) :=
  (create_peer_socket_classified sampleHandler 1 .ok 7 (by decide) rfl).2.2 rfl
